import Mathlib

/-!
Shallow embedding of the Process & Configuration Lifecycle Manager of
clash-verge (`src-tauri/src/core/core.rs`, `CoreManager`).

External effects (config store file generation, the service control client,
the engine control API, subprocess spawning, the file system and the
embedded JavaScript interpreter) are modelled as oracle records supplying
the outcome of each external call; the functions additionally emit a trace
of `Event`s recording which external actions they performed, so that
"no subprocess was spawned" style properties are expressible.
-/

/-! ## String helpers (Rust `str::contains` on a `&str` pattern is a
substring test; we define a decidable substring check). -/

/-- Boolean test that the first list is a prefix of the second. -/
def listPrefixEq : List Char → List Char → Bool
  | [], _ => true
  | _ :: _, [] => false
  | a :: as, b :: bs => a == b && listPrefixEq as bs

/-- Boolean test that `pat` occurs as a contiguous sublist of the second list. -/
def listHasSub (pat : List Char) : List Char → Bool
  | [] => listPrefixEq pat []
  | c :: cs => listPrefixEq pat (c :: cs) || listHasSub pat cs

/-- Rust `s.contains(pat)`: `pat` occurs as a substring of `s`. -/
def strHasSub (s pat : String) : Bool := listHasSub pat.toList s.toList

/-- Rust `s.ends_with(pat)`: `pat` is a suffix of `s`. -/
def strEndsWith (s pat : String) : Bool :=
  listPrefixEq pat.toList.reverse s.toList.reverse

/-! ## The config store's draft/latest cells.

Modelled from the spec: the per-domain `draft()/latest()/apply()/discard()`
cells of the Config Store live in the excluded config module (not under
`src/`).  Per the spec, each domain has a committed value and an optional
uncommitted draft; `apply()` copies the draft into the committed value,
`discard()` drops the draft leaving the committed value untouched, and
`latest()` observes the draft when one is present (the spec's Core Switch
section states that validation reads the currently-drafted variant). -/

/-- Modelled from the spec: one versioned configuration domain of the Config
Store, holding the committed value `data` and the optional uncommitted
`draft`. -/
structure Draft (α : Type) where
  data : α
  draft : Option α
  deriving Repr, DecidableEq

/-- Modelled from the spec: `latest()` observes the draft when present,
otherwise the committed value. -/
def Draft.latestD {α : Type} (d : Draft α) : α := d.draft.getD d.data

/-- Modelled from the spec: `apply()` commits the draft (a no-op when there
is no draft). -/
def Draft.applyD {α : Type} (d : Draft α) : Draft α := ⟨d.draft.getD d.data, none⟩

/-- Modelled from the spec: `discard()` drops the draft, leaving the
committed value untouched. -/
def Draft.discardD {α : Type} (d : Draft α) : Draft α := ⟨d.data, none⟩

/-! ## Data model -/

/-- `ConfigType` from the config module: `Run` produces the live config file,
`Check` a throwaway file for dry-run validation. -/
inductive ConfigType where
  | run
  | check
  deriving Repr, DecidableEq

/-- The application-settings domain, restricted to the field `CoreManager`
reads and writes: `clash_core`, the selected engine variant. -/
structure VergeConfig where
  clashCore : Option String
  deriving Repr, DecidableEq

/-- The mutable state touched by `CoreManager`: the `running` flag behind its
mutex, the application-settings domain (`Config::verge()`), the runtime
domain (`Config::runtime()`, contents abstracted to `Nat`), and the committed
engine-facing config (`Config::clash().latest()`, abstracted to `Nat`), which
`use_default_config` copies into the runtime draft. -/
structure CoreState where
  running : Bool
  verge : Draft VergeConfig
  runtime : Draft Nat
  clashLatest : Nat
  deriving Repr, DecidableEq

/-- Trace of external actions a `CoreManager` method performed. -/
inductive Event where
  | genFile (t : ConfigType)
  | generateConfig
  | patchTun
  | serviceStopCall
  | serviceRunCall
  | killByName (name : String)
  | spawnSidecar (name : String)
  | spawnCheck (name : String)
  | putConfigs (attempt : Nat)
  | sleepMs (ms : Nat)
  | saveFile
  | saveYaml
  | notice (kind msg : String)
  deriving Repr, DecidableEq

/-- The clash core selected for spawning: `Config::verge().latest().clash_core`
with the `"verge-mihomo"` default (`core.rs` lines 102-103 and 223-224). -/
def coreNameOf (st : CoreState) : String :=
  (st.verge.latestD.clashCore).getD "verge-mihomo"

/-! ## Process Supervisor: `stop_core`, `start_core`, `restart_core` -/

/-- Outcomes of the external calls `stop_core` makes.  `patchOk` and `killOk`
record whether the tun-disable patch and the kill-by-name command succeed;
the code ignores both results (`log_err!` / `let _ =`). -/
structure StopEnv where
  patchOk : Bool
  serviceOk : Bool
  serviceStopErr : Option String
  killOk : Bool
  deriving Repr

/-- `CoreManager::stop_core` (core.rs lines 37-82).  Early-returns `Ok` when
not running; otherwise issues the best-effort tun-disable patch, then stops
via the service (propagating its error with `?`) or kills the sidecar by
process name (result discarded), and finally clears `running`.  The non-
Windows branch (a single `pkill -f verge-mihomo`) is the one embedded; the
Windows branch differs only in issuing two ignored `taskkill` commands. -/
def stop_core (e : StopEnv) (st : CoreState) :
    Except String Unit × CoreState × List Event :=
  if !st.running then
    (Except.ok (), st, [])
  else
    if e.serviceOk then
      match e.serviceStopErr with
      | some err =>
          (Except.error err, st, [Event.patchTun, Event.serviceStopCall])
      | none =>
          (Except.ok (), { st with running := false },
            [Event.patchTun, Event.serviceStopCall])
    else
      (Except.ok (), { st with running := false },
        [Event.patchTun, Event.killByName "verge-mihomo"])

/-- Outcomes of the external calls `start_core` makes. -/
structure StartEnv where
  genErr : Option String
  serviceOk : Bool
  serviceRunErr : Option String
  spawnErr : Option String
  deriving Repr

/-- `CoreManager::start_core` (core.rs lines 85-130).  Early-returns `Ok`
when already running; otherwise generates the Run-type config file, then
starts via the service or spawns the selected core variant as a sidecar
(detached, followed by a 500ms grace sleep), and sets `running`. -/
def start_core (e : StartEnv) (st : CoreState) :
    Except String Unit × CoreState × List Event :=
  if st.running then
    (Except.ok (), st, [])
  else
    match e.genErr with
    | some err => (Except.error err, st, [])
    | none =>
      if e.serviceOk then
        match e.serviceRunErr with
        | some err =>
            (Except.error err, st, [Event.genFile ConfigType.run, Event.serviceRunCall])
        | none =>
            (Except.ok (), { st with running := true },
              [Event.genFile ConfigType.run, Event.serviceRunCall])
      else
        match e.spawnErr with
        | some err =>
            (Except.error err, st,
              [Event.genFile ConfigType.run, Event.spawnSidecar (coreNameOf st)])
        | none =>
            (Except.ok (), { st with running := true },
              [Event.genFile ConfigType.run, Event.spawnSidecar (coreNameOf st),
                Event.sleepMs 500])

/-- `CoreManager::restart_core` (core.rs lines 133-138): `stop_core` then
`start_core`, each error propagated with `?`. -/
def restart_core (es : StopEnv) (ee : StartEnv) (st : CoreState) :
    Except String Unit × CoreState × List Event :=
  match stop_core es st with
  | (Except.error err, st1, evs) => (Except.error err, st1, evs)
  | (Except.ok _, st1, evs) =>
    match start_core ee st1 with
    | (r, st2, evs2) => (r, st2, evs ++ evs2)

/-! ## Validation Engine -/

/-- Captured output of the check-mode subprocess (`output.status.success()`,
`output.status.code()`, stdout, stderr after lossy UTF-8 decoding). -/
structure CmdOutput where
  success : Bool
  code : Option Int
  stdout : String
  stderr : String
  deriving Repr, DecidableEq

/-- The fixed fatal-error markers (core.rs line 242). -/
def error_keywords : List String := ["FATA", "fatal", "Parse config error", "level=fatal"]

/-- `has_error` of `validate_config_internal` (core.rs line 243): non-success
exit status, or stderr containing any fatal marker. -/
def hasErrorOf (out : CmdOutput) : Bool :=
  !out.success || error_keywords.any (fun kw => strHasSub out.stderr kw)

/-- The failure diagnostic of `validate_config_internal` (core.rs lines
250-258): non-empty stdout, else non-empty stderr, else a synthesized message
describing the exit code or the kill-by-signal. -/
def diagnosticOf (out : CmdOutput) : String :=
  if !out.stdout.isEmpty then out.stdout
  else if !out.stderr.isEmpty then out.stderr
  else
    match out.code with
    | some c => "验证进程异常退出，退出码: " ++ toString c
    | none => "验证进程被终止"

/-- `CoreManager::validate_config_internal` (core.rs lines 220-266).  Spawns
the currently selected core variant in check mode (`-t`); `checkOut` is the
oracle outcome of that subprocess call (`Except.error` when the sidecar
command itself fails, propagated with `?`). -/
def validate_config_internal (checkOut : Except String CmdOutput) (st : CoreState) :
    Except String (Bool × String) × List Event :=
  match checkOut with
  | Except.error err => (Except.error err, [])
  | Except.ok out =>
    if hasErrorOf out then
      (Except.ok (false, diagnosticOf out), [Event.spawnCheck (coreNameOf st)])
    else
      (Except.ok (true, ""), [Event.spawnCheck (coreNameOf st)])

/-- Outcomes of the external calls `validate_config` makes. -/
structure ValidateEnv where
  genCheckErr : Option String
  checkOut : Except String CmdOutput
  deriving Repr

/-- `CoreManager::validate_config` (core.rs lines 269-273): generate the
Check-type file, then run `validate_config_internal` on it. -/
def validate_config (e : ValidateEnv) (st : CoreState) :
    Except String (Bool × String) × List Event :=
  match e.genCheckErr with
  | some err => (Except.error err, [])
  | none =>
    match validate_config_internal e.checkOut st with
    | (r, evs) => (r, Event.genFile ConfigType.check :: evs)

/-- `CoreManager::is_script_file`'s content test (core.rs lines 318-326):
the first five lines, concatenated, contain a script-like token.  Rust's
`.lines()` splits on newline and strips a trailing carriage return. -/
def isScriptContent (content : String) : Bool :=
  let first_lines := String.join
    (((content.splitOn "\n").take 5).map
      (fun l => if strEndsWith l "\r" then l.dropRight 1 else l))
  strHasSub first_lines "function" ||
  strHasSub first_lines "//" ||
  strHasSub first_lines "/*" ||
  strHasSub first_lines "import" ||
  strHasSub first_lines "export" ||
  strHasSub first_lines "const " ||
  strHasSub first_lines "let "

/-- `CoreManager::is_script_file` (core.rs lines 309-327): read the file
(`readRes` is the oracle outcome), erroring when the read fails, otherwise
content-sniff the first lines. -/
def is_script_file (readRes : Except String String) : Except String Bool :=
  match readRes with
  | Except.error err => Except.error ("Failed to read file to detect type: " ++ err)
  | Except.ok content => Except.ok (isScriptContent content)

/-- The entry-point check of `validate_script_file` (core.rs line 354): the
raw source text contains one of three exact substrings. -/
def hasMainEntry (content : String) : Bool :=
  strHasSub content "function main" ||
  strHasSub content "const main" ||
  strHasSub content "let main"

/-- `CoreManager::validate_script_file` (core.rs lines 330-370).  `readRes`
is the oracle outcome of reading the file; `evalOf` gives the boa-engine
evaluation outcome for a source text (`none` = evaluated without error,
`some err` = evaluation error `err`). -/
def validate_script_file (readRes : Except String String)
    (evalOf : String → Option String) : Bool × String :=
  match readRes with
  | Except.error err => (false, "Failed to read script file: " ++ err)
  | Except.ok content =>
    match evalOf content with
    | some err => (false, "Script syntax error: " ++ err)
    | none =>
      if !hasMainEntry content then
        (false, "Script must contain a main function")
      else
        (true, "")

/-- Outcomes of the external calls `validate_config_file` makes:
whether the path exists, the file-read outcome (shared by the content sniff
and the script validator, which read the same path), the script evaluation
oracle, and the check-subprocess outcome for the engine-binary path. -/
structure FileEnv where
  fileExists : Bool
  readRes : Except String String
  evalOf : String → Option String
  checkOut : Except String CmdOutput

/-- `CoreManager::validate_config_file` (core.rs lines 276-306).  A missing
path short-circuits to a file-not-found failure; a `.js` extension or a
script-sniffing hit routes to script validation; a sniffing I/O error falls
back to engine-binary validation; otherwise engine-binary validation. -/
def validate_config_file (path : String) (e : FileEnv) (st : CoreState) :
    Except String (Bool × String) × List Event :=
  if !e.fileExists then
    (Except.ok (false, "File not found: " ++ path), [])
  else
    let is_script : Except String Bool :=
      if strEndsWith path ".js" then Except.ok true
      else is_script_file e.readRes
    match is_script with
    | Except.error _ => validate_config_internal e.checkOut st
    | Except.ok true => (Except.ok (validate_script_file e.readRes e.evalOf), [])
    | Except.ok false => validate_config_internal e.checkOut st

/-! ## Config Apply Pipeline: `update_config` -/

/-- Outcomes of the external calls `update_config` makes.  `generated` is the
merged desired state the Config Store produces.  Modelled from the spec:
`Config::generate()` lives in the excluded config module; per the spec it
regenerates the merged desired state, which becomes the runtime draft that
the pipeline later commits or discards.  `put` gives the outcome of the
control-API put on each attempt (`none` = success). -/
structure UpdateEnv where
  generateErr : Option String
  generated : Nat
  genCheckErr : Option String
  vEnv : ValidateEnv
  genRunErr : Option String
  put : Nat → Option String

/-- The retry loop of `update_config` (core.rs lines 390-408), unrolled:
`for i in 0..3`, on success apply the runtime draft and return success, on
failure sleep 100ms and retry while `i < 2`, else discard the runtime draft
and return the last error's text. -/
def apply_retry (put : Nat → Option String) (st : CoreState) :
    (Bool × String) × CoreState × List Event :=
  match put 0 with
  | none =>
      ((true, ""), { st with runtime := st.runtime.applyD }, [Event.putConfigs 0])
  | some _ =>
    match put 1 with
    | none =>
        ((true, ""), { st with runtime := st.runtime.applyD },
          [Event.putConfigs 0, Event.sleepMs 100, Event.putConfigs 1])
    | some _ =>
      match put 2 with
      | none =>
          ((true, ""), { st with runtime := st.runtime.applyD },
            [Event.putConfigs 0, Event.sleepMs 100, Event.putConfigs 1,
              Event.sleepMs 100, Event.putConfigs 2])
      | some err =>
          ((false, err), { st with runtime := st.runtime.discardD },
            [Event.putConfigs 0, Event.sleepMs 100, Event.putConfigs 1,
              Event.sleepMs 100, Event.putConfigs 2])

/-- `CoreManager::update_config` (core.rs lines 373-422): regenerate the
merged desired state (writing the runtime draft), materialize and validate a
Check-type file, then on a pass materialize the Run-type file and push it to
the live engine with `apply_retry`; on a validation failure or validation
error discard the runtime draft.  A `generate_file(Run)` error propagates
with `?` (no discard on that path, as in the source). -/
def update_config (e : UpdateEnv) (st : CoreState) :
    Except String (Bool × String) × CoreState × List Event :=
  match e.generateErr with
  | some err => (Except.error err, st, [])
  | none =>
    let st1 : CoreState := { st with runtime := ⟨st.runtime.data, some e.generated⟩ }
    match e.genCheckErr with
    | some err => (Except.error err, st1, [Event.generateConfig])
    | none =>
      match validate_config e.vEnv st1 with
      | (Except.error err, evs) =>
          (Except.error err, { st1 with runtime := st1.runtime.discardD },
            Event.generateConfig :: Event.genFile ConfigType.check :: evs)
      | (Except.ok (false, msg), evs) =>
          (Except.ok (false, msg), { st1 with runtime := st1.runtime.discardD },
            Event.generateConfig :: Event.genFile ConfigType.check :: evs)
      | (Except.ok (true, _), evs) =>
        match e.genRunErr with
        | some err =>
            (Except.error err, st1,
              Event.generateConfig :: Event.genFile ConfigType.check :: evs)
        | none =>
          match apply_retry e.put st1 with
          | (r, st2, evs2) =>
              (Except.ok r, st2,
                Event.generateConfig :: Event.genFile ConfigType.check ::
                  (evs ++ Event.genFile ConfigType.run :: evs2))

/-! ## Core Switch State Machine: `change_core` -/

/-- `CoreManager::use_default_config` (core.rs lines 141-155): write a
runtime draft derived from the committed engine-facing config, persist it as
the runtime YAML (`saveYamlErr` is the oracle outcome of `save_yaml`,
propagated with `?`), and notify observers. -/
def use_default_config (saveYamlErr : Option String) (msg_type msg_content : String)
    (st : CoreState) : Except String Unit × CoreState × List Event :=
  let st1 : CoreState := { st with runtime := ⟨st.runtime.data, some st.clashLatest⟩ }
  match saveYamlErr with
  | some err => (Except.error err, st1, [])
  | none => (Except.ok (), st1, [Event.saveYaml, Event.notice msg_type msg_content])

/-- The fixed allowlist `CLASH_CORES` (core.rs line 160). -/
def clash_cores : List String := ["verge-mihomo", "verge-mihomo-alpha"]

/-- Outcomes of the external calls `change_core` makes. -/
structure ChangeEnv where
  vEnv : ValidateEnv
  stopEnv : StopEnv
  startEnv : StartEnv
  saveYamlErr : Option String

/-- The state with the requested variant written into the
application-settings draft (core.rs line 169:
`Config::verge().draft().clash_core = Some(clash_core)`). -/
def draftCore (st : CoreState) (c : String) : CoreState :=
  { st with verge := ⟨st.verge.data, some { st.verge.latestD with clashCore := some c }⟩ }

/-- The validation-passed continuation of `change_core` (core.rs lines
173-190): apply the application-settings draft, persist it, restart;
on restart success commit the runtime draft, on restart failure discard
both the application-settings and runtime drafts. -/
def change_core_on_pass (e : ChangeEnv) (st1 : CoreState) :
    Except String Unit × CoreState × List Event :=
  match restart_core e.stopEnv e.startEnv { st1 with verge := st1.verge.applyD } with
  | (Except.ok _, st3, evs2) =>
      (Except.ok (), { st3 with runtime := st3.runtime.applyD },
        Event.saveFile :: evs2)
  | (Except.error err, st3, evs2) =>
      (Except.error err,
        { st3 with verge := st3.verge.discardD, runtime := st3.runtime.discardD },
        Event.saveFile :: evs2)

/-- The validation-failed continuation of `change_core` (core.rs lines
192-209): fall back to the default config (its error propagating with `?`),
apply the application-settings draft, persist it, restart; on restart
failure discard the application-settings draft. -/
def change_core_on_fail (e : ChangeEnv) (msg : String) (st1 : CoreState) :
    Except String Unit × CoreState × List Event :=
  match use_default_config e.saveYamlErr "config_validate::core_change" msg st1 with
  | (Except.error err, st2, evs2) => (Except.error err, st2, evs2)
  | (Except.ok _, st2, evs2) =>
    match restart_core e.stopEnv e.startEnv { st2 with verge := st2.verge.applyD } with
    | (Except.ok _, st4, evs3) =>
        (Except.ok (), st4, evs2 ++ Event.saveFile :: evs3)
    | (Except.error err, st4, evs3) =>
        (Except.error err, { st4 with verge := st4.verge.discardD },
          evs2 ++ Event.saveFile :: evs3)

/-- `CoreManager::change_core` (core.rs lines 158-217).  Reject a missing or
non-allowlisted variant before any mutation; otherwise write the variant
into the application-settings draft, validate under the drafted variant, and
dispatch to `change_core_on_pass` / `change_core_on_fail`; on a validation
error (as opposed to failure), discard the application-settings draft. -/
def change_core (e : ChangeEnv) (clash_core : Option String) (st : CoreState) :
    Except String Unit × CoreState × List Event :=
  match clash_core with
  | none => (Except.error "clash core is null", st, [])
  | some c =>
    if !clash_cores.contains c then
      (Except.error ("invalid clash core name \"" ++ c ++ "\""), st, [])
    else
      let st1 : CoreState := draftCore st c
      match validate_config e.vEnv st1 with
      | (Except.error err, evs) =>
          (Except.error err, { st1 with verge := st1.verge.discardD }, evs)
      | (Except.ok (true, _), evs) =>
        match change_core_on_pass e st1 with
        | (r, st', evs2) => (r, st', evs ++ evs2)
      | (Except.ok (false, msg), evs) =>
        match change_core_on_fail e msg st1 with
        | (r, st', evs2) => (r, st', evs ++ evs2)

/-! ## Sample states and environments used by concrete witnesses -/

/-- A state with the engine running and `"verge-mihomo"` committed. -/
def st_run : CoreState := ⟨true, ⟨⟨some "verge-mihomo"⟩, none⟩, ⟨0, none⟩, 7⟩

/-- A state with the engine not running and `"verge-mihomo"` committed. -/
def st_idle : CoreState := ⟨false, ⟨⟨some "verge-mihomo"⟩, none⟩, ⟨0, none⟩, 7⟩

/-- The condition under which `start_core` on a non-running state fails, with
the error it fails with. -/
def startFailErr (e : StartEnv) : Option String :=
  match e.genErr with
  | some err => some err
  | none => if e.serviceOk then e.serviceRunErr else e.spawnErr

/-- The condition under which `restart_core` fails, with the error it fails
with: a service-managed stop failure (when running), else a start failure. -/
def restartFailErr (es : StopEnv) (ee : StartEnv) (running : Bool) : Option String :=
  match (if running && es.serviceOk then es.serviceStopErr else none) with
  | some err => some err
  | none => startFailErr ee

/-- Sample script defining `main`, evaluating without error. -/
def script_with_main : String := "function main = x => x"

/-- Sample script without a `main` entry point. -/
def script_no_main : String := "function helper = x => x"

/-- Script whose only occurrence of "function main" is inside a comment. -/
def script_comment_main : String := "// function main appears only here\nlet x = 1"

/-- Script defining `main` with `var`, which the raw substring test misses. -/
def script_var_main : String := "var main = 1"

/-- Environment for the C1 witness where the first push fails and the
second succeeds. -/
def c1_env_ok : UpdateEnv :=
  ⟨none, 5, none, ⟨none, Except.ok ⟨true, some 0, "", ""⟩⟩, none,
    fun i => if i = 0 then some "connection refused" else none⟩

/-- Environment for the C1 witness where all three pushes fail. -/
def c1_env_fail : UpdateEnv :=
  ⟨none, 5, none, ⟨none, Except.ok ⟨true, some 0, "", ""⟩⟩, none,
    fun i => some ("refused " ++ toString i)⟩


/-! ## Helper lemmas -/

lemma stop_core_no_spawnCheck (e : StopEnv) (st : CoreState) (n : String) :
    Event.spawnCheck n ∉ (stop_core e st).2.2 := by
  cases hr : st.running <;>
    cases hso : e.serviceOk <;>
      cases hse : e.serviceStopErr <;>
        simp [stop_core, hr, hso, hse]

lemma start_core_no_spawnCheck (e : StartEnv) (st : CoreState) (n : String) :
    Event.spawnCheck n ∉ (start_core e st).2.2 := by
  cases hr : st.running <;>
    cases hg : e.genErr <;>
      cases hs : e.serviceOk <;>
        cases hsr : e.serviceRunErr <;>
          cases hsp : e.spawnErr <;>
            simp [start_core, hr, hg, hs, hsr, hsp]

lemma restart_core_no_spawnCheck (es : StopEnv) (ee : StartEnv) (st : CoreState)
    (n : String) : Event.spawnCheck n ∉ (restart_core es ee st).2.2 := by
  cases hr : st.running <;>
    cases hso : es.serviceOk <;>
      cases hse : es.serviceStopErr <;>
        cases hg : ee.genErr <;>
          cases hs2 : ee.serviceOk <;>
            cases hsr : ee.serviceRunErr <;>
              cases hsp : ee.spawnErr <;>
                simp [restart_core, stop_core, start_core, hr, hso, hse, hg,
                  hs2, hsr, hsp]

lemma use_default_config_no_spawnCheck (se : Option String) (k m : String)
    (st : CoreState) (n : String) :
    Event.spawnCheck n ∉ (use_default_config se k m st).2.2 := by
  cases se <;> simp [use_default_config]

lemma restart_core_spec (es : StopEnv) (ee : StartEnv) (st : CoreState) :
    (restart_core es ee st).2.1.verge = st.verge
    ∧ (restart_core es ee st).2.1.runtime = st.runtime
    ∧ (restartFailErr es ee st.running = none → (restart_core es ee st).1 = Except.ok ())
    ∧ (∀ m, restartFailErr es ee st.running = some m →
        (restart_core es ee st).1 = Except.error m) := by
  cases hr : st.running <;>
    cases hso : es.serviceOk <;>
      cases hse : es.serviceStopErr <;>
        cases hg : ee.genErr <;>
          cases hs2 : ee.serviceOk <;>
            cases hsr : ee.serviceRunErr <;>
              cases hsp : ee.spawnErr <;>
                simp [restart_core, stop_core, start_core, restartFailErr,
                  startFailErr, hr, hso, hse, hg, hs2, hsr, hsp]

/-! ## Claim C9 -/

/-- C9: `start_core` called when `running` is already true returns success
without generating a config file or spawning anything (empty event trace)
and leaves the state unchanged; `stop_core` called when `running` is already
false returns success without issuing any kill, service call, or control-API
patch (empty event trace). -/
theorem c9_start_stop_idempotent (ee : StartEnv) (es : StopEnv) (st : CoreState) :
    (st.running = true → start_core ee st = (Except.ok (), st, []))
    ∧ (st.running = false → stop_core es st = (Except.ok (), st, [])) := by
  constructor
  · intro h
    simp [start_core, h]
  · intro h
    simp [stop_core, h]

/-- Witness for C9 at concrete inputs. -/
theorem c9_witness :
    start_core ⟨none, true, none, none⟩ st_run = (Except.ok (), st_run, [])
    ∧ stop_core ⟨true, true, none, true⟩ st_idle = (Except.ok (), st_idle, []) :=
  ⟨(c9_start_stop_idempotent ⟨none, true, none, none⟩ ⟨true, true, none, true⟩ st_run).1 rfl,
    (c9_start_stop_idempotent ⟨none, true, none, none⟩ ⟨true, true, none, true⟩ st_idle).2 rfl⟩

/-! ## Claim C4 -/

/-- C4 counterexample: when the service is available and the service stop
call fails, `stop_core` returns that error with `running` still true — so
`stop()` does not set RunningState to false regardless of whether the
service stop call succeeds or fails. -/
theorem c4_counterexample :
    (stop_core ⟨true, true, some "service stop failed", true⟩ st_run).2.1.running = true
    ∧ (stop_core ⟨true, true, some "service stop failed", true⟩ st_run).1
        = Except.error "service stop failed" :=
  ⟨rfl, rfl⟩

/-- C4 amended: for every invocation of `stop_core` with `running` true,
`running` is false on return whenever the service-managed stop call is not
the failing step (that is, either no service is available, or the service
stop succeeds) — regardless of the tunnel-disable patch and kill-by-name
outcomes, which the code ignores; but when the service stop call fails, the
error propagates and `running` remains true. -/
theorem c4_stop_clears_running_amended (e : StopEnv) (st : CoreState)
    (h : st.running = true) :
    ((e.serviceOk = true → e.serviceStopErr = none) →
      (stop_core e st).1 = Except.ok () ∧ (stop_core e st).2.1.running = false)
    ∧ (∀ msg, e.serviceOk = true → e.serviceStopErr = some msg →
      (stop_core e st).1 = Except.error msg ∧ (stop_core e st).2.1.running = true) := by
  constructor
  · intro hs
    cases hso : e.serviceOk with
    | true => simp [stop_core, h, hso, hs hso]
    | false => simp [stop_core, h, hso]
  · intro msg hso hse
    simp [stop_core, h, hso, hse]

/-- Witness for C4's amended theorem at concrete inputs: a failing patch and
a failing kill still end with `running = false` in sidecar mode. -/
theorem c4_witness :
    (stop_core ⟨false, false, none, false⟩ st_run).1 = Except.ok ()
    ∧ (stop_core ⟨false, false, none, false⟩ st_run).2.1.running = false :=
  (c4_stop_clears_running_amended ⟨false, false, none, false⟩ st_run rfl).1
    (fun hso => by simp at hso)

/-! ## Claim C8 -/

/-- C8: `change_core` of `none`, and of any name outside the two-element
allowlist, returns an error with the state unchanged and an empty event
trace — no draft mutated, no validation, no restart. -/
theorem c8_change_core_rejects (e : ChangeEnv) (st : CoreState) (c : String)
    (hc : clash_cores.contains c = false) :
    change_core e none st = (Except.error "clash core is null", st, [])
    ∧ change_core e (some c) st =
        (Except.error ("invalid clash core name \"" ++ c ++ "\""), st, []) := by
  constructor
  · rfl
  · have hm : ¬ c ∈ clash_cores := by simpa using hc
    simp [change_core, hm]

/-- Witness for C8 at the concrete input `"not-a-real-core"`. -/
theorem c8_witness :
    change_core ⟨⟨none, Except.error "unused"⟩, ⟨true, true, none, true⟩,
        ⟨none, true, none, none⟩, none⟩ (some "not-a-real-core") st_idle
      = (Except.error ("invalid clash core name \"not-a-real-core\""), st_idle, []) :=
  (c8_change_core_rejects ⟨⟨none, Except.error "unused"⟩, ⟨true, true, none, true⟩,
      ⟨none, true, none, none⟩, none⟩ st_idle "not-a-real-core" (by decide)).2

lemma str_append_ne_empty (s t : String) (h : s ≠ "") : s ++ t ≠ "" := by
  intro hst
  apply h
  have hlen := congrArg String.length hst
  rw [String.length_append] at hlen
  simp at hlen
  have h0 : s.length = 0 := by omega
  cases s with
  | mk data =>
    cases data with
    | nil => rfl
    | cons a as => simp [String.length] at h0

lemma isEmpty_false_ne (s : String) (h : s.isEmpty = false) : s ≠ "" := by
  intro he
  subst he
  exact absurd h (by decide)

/-! ## Claim C5 -/

/-- C5: engine-binary validation (on a check subprocess that ran) returns
passed=false exactly when the exit status is non-success or stderr contains
one of the four fatal markers; on failure the diagnostic is `diagnosticOf`,
which is non-empty and prefers non-empty stdout, else non-empty stderr, else
a synthesized exit-code/kill message; on pass the diagnostic is empty. -/
theorem c5_validate_internal_spec (out : CmdOutput) (st : CoreState) :
    ((out.success = false ∨ strHasSub out.stderr "FATA" = true
        ∨ strHasSub out.stderr "fatal" = true
        ∨ strHasSub out.stderr "Parse config error" = true
        ∨ strHasSub out.stderr "level=fatal" = true) →
      (validate_config_internal (Except.ok out) st).1
          = Except.ok (false, diagnosticOf out) ∧ diagnosticOf out ≠ "")
    ∧ ((out.success = true ∧ strHasSub out.stderr "FATA" = false
        ∧ strHasSub out.stderr "fatal" = false
        ∧ strHasSub out.stderr "Parse config error" = false
        ∧ strHasSub out.stderr "level=fatal" = false) →
      (validate_config_internal (Except.ok out) st).1 = Except.ok (true, ""))
    ∧ (out.stdout.isEmpty = false → diagnosticOf out = out.stdout)
    ∧ (out.stdout.isEmpty = true → out.stderr.isEmpty = false →
        diagnosticOf out = out.stderr)
    ∧ (out.stdout.isEmpty = true → out.stderr.isEmpty = true → ∀ c, out.code = some c →
        diagnosticOf out = "验证进程异常退出，退出码: " ++ toString c)
    ∧ (out.stdout.isEmpty = true → out.stderr.isEmpty = true → out.code = none →
        diagnosticOf out = "验证进程被终止") := by
  refine ⟨?_, ?_, ?_, ?_, ?_, ?_⟩
  · intro hfail
    have herr : hasErrorOf out = true := by
      rcases hfail with h | h | h | h | h <;>
        simp [hasErrorOf, error_keywords, h]
    refine ⟨by simp [validate_config_internal, herr], ?_⟩
    unfold diagnosticOf
    by_cases h1 : out.stdout.isEmpty
    · by_cases h2 : out.stderr.isEmpty
      · cases hc : out.code with
        | none => simp [h1, h2, hc]
        | some c =>
          simp only [h1, h2, hc, Bool.not_true, if_false]
          exact str_append_ne_empty _ _ (by decide)
      · simp only [h1, Bool.not_true, if_false,
          Bool.not_eq_true' .. ▸ rfl]
        simp [eq_false_of_ne_true, h2]
        exact isEmpty_false_ne _ (by simpa using h2)
    · simp [h1]
      exact isEmpty_false_ne _ (by simpa using h1)
  · intro hpass
    obtain ⟨h0, h1, h2, h3, h4⟩ := hpass
    have herr : hasErrorOf out = false := by
      simp [hasErrorOf, error_keywords, h0, h1, h2, h3, h4]
    simp [validate_config_internal, herr]
  · intro h
    simp [diagnosticOf, h]
  · intro h1 h2
    simp [diagnosticOf, h1, h2]
  · intro h1 h2 c hc
    simp [diagnosticOf, h1, h2, hc]
  · intro h1 h2 hc
    simp [diagnosticOf, h1, h2, hc]

/-- Witness for C5 at a concrete failing output with empty stdout/stderr. -/
theorem c5_witness :
    (validate_config_internal (Except.ok ⟨false, some 1, "", ""⟩) st_idle).1
        = Except.ok (false, diagnosticOf ⟨false, some 1, "", ""⟩)
    ∧ diagnosticOf ⟨false, some 1, "", ""⟩ ≠ ""
    ∧ diagnosticOf ⟨false, some 1, "", ""⟩ = "验证进程异常退出，退出码: 1" := by
  have h := (c5_validate_internal_spec ⟨false, some 1, "", ""⟩ st_idle).1 (Or.inl rfl)
  exact ⟨h.1, h.2, by decide⟩

/-! ## Claim C6 -/

/-- C6: for every script source, if evaluation fails the validator returns
passed=false with a syntax-error diagnostic; if evaluation succeeds but the
source text lacks a `main` entry point (per the code's entry-point check) it
returns passed=false with the missing-entry-point diagnostic; if evaluation
succeeds and the entry-point check holds it returns passed=true with an
empty diagnostic. -/
theorem c6_script_trichotomy (content : String) (evalOf : String → Option String) :
    (∀ err, evalOf content = some err →
      validate_script_file (Except.ok content) evalOf
        = (false, "Script syntax error: " ++ err))
    ∧ (evalOf content = none → hasMainEntry content = false →
      validate_script_file (Except.ok content) evalOf
        = (false, "Script must contain a main function"))
    ∧ (evalOf content = none → hasMainEntry content = true →
      validate_script_file (Except.ok content) evalOf = (true, "")) := by
  refine ⟨?_, ?_, ?_⟩
  · intro err he
    simp [validate_script_file, he]
  · intro he hm
    simp [validate_script_file, he, hm]
  · intro he hm
    simp [validate_script_file, he, hm]

/-- Witness for C6 at concrete script sources: an evaluation error, a
missing entry point, and a passing script. -/
theorem c6_witness :
    validate_script_file (Except.ok script_with_main) (fun _ => some "unexpected token")
        = (false, "Script syntax error: unexpected token")
    ∧ validate_script_file (Except.ok script_no_main) (fun _ => none)
        = (false, "Script must contain a main function")
    ∧ validate_script_file (Except.ok script_with_main) (fun _ => none) = (true, "") :=
  ⟨(c6_script_trichotomy script_with_main (fun _ => some "unexpected token")).1
      "unexpected token" rfl,
    (c6_script_trichotomy script_no_main (fun _ => none)).2.1 rfl (by decide),
    (c6_script_trichotomy script_with_main (fun _ => none)).2.2 rfl (by decide)⟩

/-! ## Claim C10 -/

/-- C10: for every script source that evaluates without error, script
validation passes exactly when the full source text contains one of the raw
substrings "function main", "const main" or "let main" — a raw substring
test, insensitive to comments, strings, or other definition forms. -/
theorem c10_main_check_is_raw_substring (content : String)
    (evalOf : String → Option String) (he : evalOf content = none) :
    (validate_script_file (Except.ok content) evalOf).1 = true
      ↔ (strHasSub content "function main" || strHasSub content "const main"
          || strHasSub content "let main") = true := by
  constructor
  · intro h
    cases hm : hasMainEntry content with
    | false => simp [validate_script_file, he, hm] at h
    | true => simpa [hasMainEntry] using hm
  · intro h
    have hm : hasMainEntry content = true := by simpa [hasMainEntry] using h
    simp [validate_script_file, he, hm]

/-- Witness for C10: the comment-only script passes and the `var main`
script fails, both evaluating without error. -/
theorem c10_witness :
    (validate_script_file (Except.ok script_comment_main) (fun _ => none)).1 = true
    ∧ (validate_script_file (Except.ok script_var_main) (fun _ => none)).1 = false := by
  refine ⟨(c10_main_check_is_raw_substring script_comment_main
      (fun _ => none) rfl).mpr (by decide), ?_⟩
  cases hv : (validate_script_file (Except.ok script_var_main) (fun _ => none)).1 with
  | false => rfl
  | true =>
    have h := (c10_main_check_is_raw_substring script_var_main (fun _ => none) rfl).mp hv
    exact absurd h (by decide)

/-! ## Claim C7 -/

/-- C7: `validate_config_file` on a nonexistent path returns passed=false
with a file-not-found diagnostic and an empty event trace (no dispatch, no
subprocess); and on an existing non-`.js` file whose content-sniffing read
fails with an I/O error it behaves exactly as engine-binary validation
(`validate_config_internal`) instead of returning failure. -/
theorem c7_notfound_and_io_fallback (path : String) (e : FileEnv) (st : CoreState) :
    (e.fileExists = false →
      validate_config_file path e st
        = (Except.ok (false, "File not found: " ++ path), []))
    ∧ (e.fileExists = true → strEndsWith path ".js" = false →
      ∀ err, e.readRes = Except.error err →
      validate_config_file path e st = validate_config_internal e.checkOut st) := by
  constructor
  · intro h
    simp [validate_config_file, h]
  · intro h hjs err hread
    simp [validate_config_file, is_script_file, h, hjs, hread]

/-- Witness for C7 at concrete inputs: a missing path, and an existing YAML
path whose sniffing read fails, falling back to a passing engine check. -/
theorem c7_witness :
    validate_config_file "missing.yaml"
        ⟨false, Except.error "unused", fun _ => none, Except.ok ⟨true, some 0, "", ""⟩⟩ st_idle
      = (Except.ok (false, "File not found: missing.yaml"), [])
    ∧ validate_config_file "profile.yaml"
        ⟨true, Except.error "permission denied", fun _ => none,
          Except.ok ⟨true, some 0, "", ""⟩⟩ st_idle
      = validate_config_internal (Except.ok ⟨true, some 0, "", ""⟩) st_idle :=
  ⟨(c7_notfound_and_io_fallback "missing.yaml"
      ⟨false, Except.error "unused", fun _ => none, Except.ok ⟨true, some 0, "", ""⟩⟩
      st_idle).1 rfl,
    (c7_notfound_and_io_fallback "profile.yaml"
      ⟨true, Except.error "permission denied", fun _ => none,
        Except.ok ⟨true, some 0, "", ""⟩⟩ st_idle).2 rfl (by decide)
      "permission denied" rfl⟩


/-! ## Reduction lemmas for `change_core` -/

lemma coreNameOf_draftCore (st : CoreState) (c : String) :
    coreNameOf (draftCore st c) = c := by
  simp [coreNameOf, draftCore, Draft.latestD]

lemma validate_config_reduce (e : ValidateEnv) (st : CoreState)
    (hg : e.genCheckErr = none) (out : CmdOutput) (ho : e.checkOut = Except.ok out) :
    validate_config e st
      = ((if hasErrorOf out then Except.ok (false, diagnosticOf out)
            else Except.ok (true, "")),
          [Event.genFile ConfigType.check, Event.spawnCheck (coreNameOf st)]) := by
  by_cases h : hasErrorOf out <;>
    simp [validate_config, validate_config_internal, hg, ho, h]

lemma change_core_reduce_pass (e : ChangeEnv) (st : CoreState) (c : String)
    (hc : clash_cores.contains c = true) (hg : e.vEnv.genCheckErr = none)
    (out : CmdOutput) (ho : e.vEnv.checkOut = Except.ok out)
    (hpass : hasErrorOf out = false) :
    change_core e (some c) st
      = ((change_core_on_pass e (draftCore st c)).1,
          (change_core_on_pass e (draftCore st c)).2.1,
          Event.genFile ConfigType.check :: Event.spawnCheck c ::
            (change_core_on_pass e (draftCore st c)).2.2) := by
  have hm : c ∈ clash_cores := by simpa using hc
  have hv := validate_config_reduce e.vEnv (draftCore st c) hg out ho
  rw [hpass] at hv
  simp only [if_false, Bool.false_eq_true] at hv
  rcases hcp : change_core_on_pass e (draftCore st c) with ⟨r, st', evs2⟩
  simp [change_core, hm, hv, hcp, coreNameOf_draftCore]

lemma change_core_reduce_fail (e : ChangeEnv) (st : CoreState) (c : String)
    (hc : clash_cores.contains c = true) (hg : e.vEnv.genCheckErr = none)
    (out : CmdOutput) (ho : e.vEnv.checkOut = Except.ok out)
    (hfail : hasErrorOf out = true) :
    change_core e (some c) st
      = ((change_core_on_fail e (diagnosticOf out) (draftCore st c)).1,
          (change_core_on_fail e (diagnosticOf out) (draftCore st c)).2.1,
          Event.genFile ConfigType.check :: Event.spawnCheck c ::
            (change_core_on_fail e (diagnosticOf out) (draftCore st c)).2.2) := by
  have hm : c ∈ clash_cores := by simpa using hc
  have hv := validate_config_reduce e.vEnv (draftCore st c) hg out ho
  rw [hfail] at hv
  simp only [if_true] at hv
  rcases hcp : change_core_on_fail e (diagnosticOf out) (draftCore st c) with ⟨r, st', evs2⟩
  simp [change_core, hm, hv, hcp, coreNameOf_draftCore]

lemma change_core_on_pass_no_spawnCheck (e : ChangeEnv) (st1 : CoreState)
    (n : String) : Event.spawnCheck n ∉ (change_core_on_pass e st1).2.2 := by
  unfold change_core_on_pass
  rcases hrc : restart_core e.stopEnv e.startEnv { st1 with verge := st1.verge.applyD }
    with ⟨r, st3, evs2⟩
  have h1 := restart_core_no_spawnCheck e.stopEnv e.startEnv
    { st1 with verge := st1.verge.applyD } n
  rw [hrc] at h1
  try rw [hrc]
  cases r <;> simpa using h1

lemma change_core_on_fail_no_spawnCheck (e : ChangeEnv) (msg : String)
    (st1 : CoreState) (n : String) :
    Event.spawnCheck n ∉ (change_core_on_fail e msg st1).2.2 := by
  unfold change_core_on_fail
  cases hsy : e.saveYamlErr with
  | some err => simp [use_default_config, hsy]
  | none =>
    simp only [use_default_config, hsy]
    rcases hrc : restart_core e.stopEnv e.startEnv
        { running := st1.running,
          verge := ({ st1 with runtime := ⟨st1.runtime.data, some st1.clashLatest⟩ } :
              CoreState).verge.applyD,
          runtime := ⟨st1.runtime.data, some st1.clashLatest⟩,
          clashLatest := st1.clashLatest } with ⟨r, st4, evs3⟩
    have h1 := restart_core_no_spawnCheck e.stopEnv e.startEnv
      { running := st1.running,
        verge := ({ st1 with runtime := ⟨st1.runtime.data, some st1.clashLatest⟩ } :
            CoreState).verge.applyD,
        runtime := ⟨st1.runtime.data, some st1.clashLatest⟩,
        clashLatest := st1.clashLatest } n
    rw [hrc] at h1
    try rw [hrc]
    cases r <;> simpa using h1

/-! ## Claim C3 -/

/-- C3: `change_core` writes the requested variant into the
application-settings draft before validating, so the check-mode subprocess
the validation spawns is the newly drafted variant `c` for every prior
state (committed variant included): the event trace contains `spawnCheck c`
and no `spawnCheck` with any other name. -/
theorem c3_change_core_validates_drafted (e : ChangeEnv) (st : CoreState)
    (c : String) (hc : clash_cores.contains c = true)
    (hg : e.vEnv.genCheckErr = none) (out : CmdOutput)
    (ho : e.vEnv.checkOut = Except.ok out) :
    Event.spawnCheck c ∈ (change_core e (some c) st).2.2
    ∧ ∀ n, n ≠ c → Event.spawnCheck n ∉ (change_core e (some c) st).2.2 := by
  cases herr : hasErrorOf out with
  | false =>
    rw [change_core_reduce_pass e st c hc hg out ho herr]
    constructor
    · simp
    · intro n hn
      simp only [List.mem_cons]
      push_neg
      exact ⟨by simp, by simp [hn],
        fun hmem => change_core_on_pass_no_spawnCheck e (draftCore st c) n hmem⟩
  | true =>
    rw [change_core_reduce_fail e st c hc hg out ho herr]
    constructor
    · simp
    · intro n hn
      simp only [List.mem_cons]
      push_neg
      exact ⟨by simp, by simp [hn],
        fun hmem =>
          change_core_on_fail_no_spawnCheck e (diagnosticOf out) (draftCore st c) n hmem⟩

/-- Witness for C3 at a concrete input: switching from a committed
`"verge-mihomo"` to `"verge-mihomo-alpha"` spawns the check subprocess with
the alpha binary, and never with the previously committed one. -/
theorem c3_witness :
    Event.spawnCheck "verge-mihomo-alpha"
        ∈ (change_core ⟨⟨none, Except.ok ⟨true, some 0, "", ""⟩⟩,
            ⟨true, false, none, true⟩, ⟨none, false, none, none⟩, none⟩
            (some "verge-mihomo-alpha") st_idle).2.2
    ∧ Event.spawnCheck "verge-mihomo"
        ∉ (change_core ⟨⟨none, Except.ok ⟨true, some 0, "", ""⟩⟩,
            ⟨true, false, none, true⟩, ⟨none, false, none, none⟩, none⟩
            (some "verge-mihomo-alpha") st_idle).2.2 := by
  have h := c3_change_core_validates_drafted
    ⟨⟨none, Except.ok ⟨true, some 0, "", ""⟩⟩, ⟨true, false, none, true⟩,
      ⟨none, false, none, none⟩, none⟩ st_idle "verge-mihomo-alpha"
    (by decide) rfl ⟨true, some 0, "", ""⟩ rfl
  exact ⟨h.1, h.2 "verge-mihomo" (by decide)⟩

/-! ## Claim C2 -/

lemma change_core_on_pass_restart_fails (e : ChangeEnv) (st1 : CoreState) (msg : String)
    (hrf : restartFailErr e.stopEnv e.startEnv st1.running = some msg) :
    (change_core_on_pass e st1).1 = Except.error msg
    ∧ (change_core_on_pass e st1).2.1.verge = ⟨st1.verge.latestD, none⟩
    ∧ (change_core_on_pass e st1).2.1.runtime = ⟨st1.runtime.data, none⟩ := by
  have hspec := restart_core_spec e.stopEnv e.startEnv { st1 with verge := st1.verge.applyD }
  rcases hrc : restart_core e.stopEnv e.startEnv { st1 with verge := st1.verge.applyD }
    with ⟨r, st3, evs2⟩
  rw [hrc] at hspec
  have herr := hspec.2.2.2 msg (by simpa using hrf)
  simp only at herr
  subst herr
  unfold change_core_on_pass
  try rw [hrc]
  have h3v : st3.verge = st1.verge.applyD := by simpa using hspec.1
  have h3r : st3.runtime = st1.runtime := by simpa using hspec.2.1
  refine ⟨rfl, ?_, ?_⟩
  · simp [h3v, Draft.applyD, Draft.discardD, Draft.latestD]
  · simp [h3r, Draft.discardD]

/-- C2 counterexample: committed variant `"verge-mihomo"`, a passing
validation for `"verge-mihomo-alpha"`, and a failing restart — yet after
`change_core` returns the restart error, the application-settings state
observable via `latest()` carries the NEW variant, not its value before the
call: the draft had already been committed before the restart, so the
discard on the failure path cannot revert it. -/
theorem c2_counterexample :
    (change_core
        ⟨⟨none, Except.ok ⟨true, some 0, "", ""⟩⟩, ⟨true, false, none, true⟩,
          ⟨some "gen failed", false, none, none⟩, none⟩
        (some "verge-mihomo-alpha") st_idle).1 = Except.error "gen failed"
    ∧ st_idle.verge.latestD.clashCore = some "verge-mihomo"
    ∧ (change_core
        ⟨⟨none, Except.ok ⟨true, some 0, "", ""⟩⟩, ⟨true, false, none, true⟩,
          ⟨some "gen failed", false, none, none⟩, none⟩
        (some "verge-mihomo-alpha") st_idle).2.1.verge.latestD.clashCore
      = some "verge-mihomo-alpha" :=
  ⟨rfl, rfl, rfl⟩

/-- C2 amended: when validation under the new variant passes and the
subsequent restart fails, `change_core` surfaces the restart error and the
runtime draft is discarded (its committed value is as before the call), but
the application-settings draft had already been committed before the
restart, so its committed value — and the state observable via `latest()` —
is the NEW variant, not the prior committed one. -/
theorem c2_change_core_restart_failure_amended (e : ChangeEnv) (st : CoreState)
    (c : String) (hc : clash_cores.contains c = true)
    (hg : e.vEnv.genCheckErr = none) (out : CmdOutput)
    (ho : e.vEnv.checkOut = Except.ok out) (hpass : hasErrorOf out = false)
    (msg : String) (hrf : restartFailErr e.stopEnv e.startEnv st.running = some msg) :
    (change_core e (some c) st).1 = Except.error msg
    ∧ (change_core e (some c) st).2.1.runtime = ⟨st.runtime.data, none⟩
    ∧ (change_core e (some c) st).2.1.verge = ⟨⟨some c⟩, none⟩ := by
  rw [change_core_reduce_pass e st c hc hg out ho hpass]
  have h := change_core_on_pass_restart_fails e (draftCore st c) msg
    (by simpa [draftCore] using hrf)
  refine ⟨h.1, ?_, ?_⟩
  · simpa [draftCore] using h.2.2
  · simpa [draftCore, Draft.latestD] using h.2.1

/-- Witness for C2's amended theorem at a concrete input. -/
theorem c2_witness :
    (change_core
        ⟨⟨none, Except.ok ⟨true, some 0, "", ""⟩⟩, ⟨true, false, none, true⟩,
          ⟨some "gen failed", false, none, none⟩, none⟩
        (some "verge-mihomo-alpha") st_idle).1 = Except.error "gen failed"
    ∧ (change_core
        ⟨⟨none, Except.ok ⟨true, some 0, "", ""⟩⟩, ⟨true, false, none, true⟩,
          ⟨some "gen failed", false, none, none⟩, none⟩
        (some "verge-mihomo-alpha") st_idle).2.1.runtime = ⟨0, none⟩
    ∧ (change_core
        ⟨⟨none, Except.ok ⟨true, some 0, "", ""⟩⟩, ⟨true, false, none, true⟩,
          ⟨some "gen failed", false, none, none⟩, none⟩
        (some "verge-mihomo-alpha") st_idle).2.1.verge
      = ⟨⟨some "verge-mihomo-alpha"⟩, none⟩ :=
  c2_change_core_restart_failure_amended
    ⟨⟨none, Except.ok ⟨true, some 0, "", ""⟩⟩, ⟨true, false, none, true⟩,
      ⟨some "gen failed", false, none, none⟩, none⟩
    st_idle "verge-mihomo-alpha" (by decide) rfl ⟨true, some 0, "", ""⟩ rfl
    (by decide) "gen failed" (by decide)

/-! ## Claim C1 -/

/-- C1: after a passing validation, `update_config` pushes the Run-type
file to the live engine up to 3 times with a 100ms pause between attempts;
if any attempt succeeds it commits the runtime draft and returns success
with an empty diagnostic, and if all three fail it discards the runtime
draft (committed runtime value unchanged) and returns failure carrying the
last error's text — the runtime draft is committed exactly when the live
push succeeds. -/
theorem c1_update_config_commit_iff (e : UpdateEnv) (st : CoreState)
    (hg : e.generateErr = none) (hc : e.genCheckErr = none)
    (hv : e.vEnv.genCheckErr = none) (out : CmdOutput)
    (ho : e.vEnv.checkOut = Except.ok out) (hpass : hasErrorOf out = false)
    (hr : e.genRunErr = none) :
    ((e.put 0 = none ∨ e.put 1 = none ∨ e.put 2 = none) →
      (update_config e st).1 = Except.ok (true, "")
      ∧ (update_config e st).2.1.runtime = ⟨e.generated, none⟩)
    ∧ (∀ m0 m1 m2, e.put 0 = some m0 → e.put 1 = some m1 → e.put 2 = some m2 →
      (update_config e st).1 = Except.ok (false, m2)
      ∧ (update_config e st).2.1.runtime = ⟨st.runtime.data, none⟩
      ∧ (update_config e st).2.2
          = [Event.generateConfig, Event.genFile ConfigType.check,
              Event.genFile ConfigType.check, Event.spawnCheck (coreNameOf st),
              Event.genFile ConfigType.run, Event.putConfigs 0, Event.sleepMs 100,
              Event.putConfigs 1, Event.sleepMs 100, Event.putConfigs 2]) := by
  constructor
  · intro hput
    rcases hp0 : e.put 0 with _ | m0
    · simp [update_config, validate_config, validate_config_internal, apply_retry,
        coreNameOf, hg, hc, hv, ho, hpass, hr, hp0, Draft.applyD, Draft.discardD]
    · rcases hp1 : e.put 1 with _ | m1
      · simp [update_config, validate_config, validate_config_internal, apply_retry,
          coreNameOf, hg, hc, hv, ho, hpass, hr, hp0, hp1, Draft.applyD, Draft.discardD]
      · rcases hp2 : e.put 2 with _ | m2
        · simp [update_config, validate_config, validate_config_internal, apply_retry,
            coreNameOf, hg, hc, hv, ho, hpass, hr, hp0, hp1, hp2,
            Draft.applyD, Draft.discardD]
        · rcases hput with h | h | h <;> simp_all
  · intro m0 m1 m2 hp0 hp1 hp2
    simp [update_config, validate_config, validate_config_internal, apply_retry,
      coreNameOf, hg, hc, hv, ho, hpass, hr, hp0, hp1, hp2,
      Draft.applyD, Draft.discardD]

/-- Witness for C1: success on the second attempt commits the generated
runtime draft; three failures discard it, returning the last error. -/
theorem c1_witness :
    (update_config c1_env_ok st_idle).1 = Except.ok (true, "")
    ∧ (update_config c1_env_ok st_idle).2.1.runtime = ⟨5, none⟩
    ∧ (update_config c1_env_fail st_idle).1 = Except.ok (false, "refused 2")
    ∧ (update_config c1_env_fail st_idle).2.1.runtime = ⟨0, none⟩ := by
  have h1 := (c1_update_config_commit_iff c1_env_ok st_idle rfl rfl rfl
    ⟨true, some 0, "", ""⟩ rfl (by decide) rfl).1 (Or.inr (Or.inl rfl))
  have h2 := (c1_update_config_commit_iff c1_env_fail st_idle rfl rfl rfl
    ⟨true, some 0, "", ""⟩ rfl (by decide) rfl).2 "refused 0" "refused 1" "refused 2"
    (by decide) (by decide) (by decide)
  exact ⟨h1.1, h1.2, h2.1, h2.2.1⟩
